import Mathlib

/-!
Shallow embedding of the send-batch orchestration of `src/index.js`
(a WhatsApp bulk-messaging relay).  The repository's single source file
contains three variants of `index.js`; the primary (first) variant is
embedded in full detail, and the third variant's `/send` handler —
which differs by lacking the readiness guard and the in-loop media
checks, and by appending a fixed footer to the message — is embedded
where claims cite it.

External effects (socket emissions, filesystem operations on the media
scratch file, timer delays, and the calls into the WhatsApp client) are
recorded as an explicit trace of actions; the WhatsApp client's
responses (`isRegisteredUser`, `sendMessage`) are supplied by an
environment oracle indexed by loop position, with `Except` capturing
whether the awaited call resolves or throws.
-/

namespace WhatsappApi

/-! ## String helpers mirroring the JavaScript primitives used -/

/-- Model of `n.replace(/\D/g, "")` : keep only digit characters. -/
def stripNonDigits (s : String) : String := ⟨s.data.filter Char.isDigit⟩

/-- Model of `s.startsWith(p)`. -/
def jsStartsWith (s p : String) : Bool := p.data.isPrefixOf s.data

/-- Model of `s.slice(-n)` (for `n ≤ s.length` the last `n` characters;
for shorter strings the whole string, as in JavaScript). -/
def sliceLast (s : String) (n : Nat) : String := ⟨s.data.drop (s.data.length - n)⟩

/-- Characters removed by `String.prototype.trim` (ASCII fragment:
space, tab, line feed, carriage return, vertical tab, form feed). -/
def isJsSpace (c : Char) : Bool :=
  c = ' ' || c = '\t' || c = '\n' || c = '\r' || c = '\x0b' || c = '\x0c'

/-- Model of `s.trim()`. -/
def jsTrim (s : String) : String :=
  ⟨((s.data.dropWhile isJsSpace).reverse.dropWhile isJsSpace).reverse⟩

/-- Model of `s.replace("+", "")` : string-pattern `replace` removes only
the first occurrence. -/
def removeFirstPlus : List Char → List Char
  | [] => []
  | c :: cs => if c = '+' then cs else c :: removeFirstPlus cs

/-- `number.replace("+", "") + "@c.us"` (line 124 of `src/index.js`). -/
def chatIdOf (number : String) : String := ⟨removeFirstPlus number.data⟩ ++ "@c.us"

/-! ## Contact normalizer (lines 91-96 of `src/index.js`)

`numbers = [...new Set(numbers.map(strip).filter(len ≥ 10).map(norm))]`.
A JavaScript `Set` iterates in insertion order, so spreading it back
into an array keeps the first occurrence of each duplicate. -/

/-- First-occurrence deduplication, as `[...new Set(a)]` produces. -/
def dedupFirstAux (seen : List String) : List String → List String
  | [] => []
  | x :: xs =>
    if x ∈ seen then dedupFirstAux seen xs
    else x :: dedupFirstAux (x :: seen) xs

def dedupFirst (l : List String) : List String := dedupFirstAux [] l

/-- The per-entry normalization applied to an already digit-stripped
entry: `n.startsWith("91") ? "+" + n : "+91" + n.slice(-10)`. -/
def normalForm (n : String) : String :=
  if jsStartsWith n "91" then "+" ++ n else "+91" ++ sliceLast n 10

/-- Lines 91-96: strip non-digits, drop entries shorter than 10 digits,
normalize, deduplicate. -/
def normalizeNumbers (numbers : List String) : List String :=
  dedupFirst
    (((numbers.map stripNonDigits).filter (fun n => 10 ≤ n.length)).map normalForm)

/-! ## Pacing delay (line 115)

`const msgDelay = Math.max(parseInt(req.body.delay) || 2000, 1500)`.
The `parseInt` result is modelled as `Option Int`: `none` for `NaN`
(absent or non-numeric field); `|| 2000` replaces both `NaN` and `0`
(the falsy values) by the default. -/

def msgDelayOf (parsed : Option Int) : Int :=
  max (match parsed with
       | some v => if v = 0 then 2000 else v
       | none => 2000) 1500

/-! ## Dispatch job data model -/

/-- An uploaded media file (`req.files.media`): express-fileupload
exposes `name`, `mimetype`, `size` (bytes) and the data buffer. -/
structure MediaFile where
  name : String
  mimetype : String
  size : Nat
  deriving DecidableEq, Repr

/-- The three running counters of a dispatch job (line 116-118). -/
structure Counters where
  sent : Nat
  skipped : Nat
  failed : Nat
  deriving DecidableEq, Repr

/-- Which counter one loop iteration incremented. -/
inductive Outcome
  | sent
  | skipped
  | failed
  deriving DecidableEq, Repr

def Counters.apply (c : Counters) : Outcome → Counters
  | .sent => { c with sent := c.sent + 1 }
  | .skipped => { c with skipped := c.skipped + 1 }
  | .failed => { c with failed := c.failed + 1 }

/-- Events emitted on the socket channel `"status"`, one constructor per
`io.emit` site of the dispatch loop. -/
inductive Event
  | skipNotRegistered (number : String)
  | skipInvalidType (number : String)
  | skipOversize (number : String)
  | sentOk (pos total : Nat) (number : String)
  | sendFailed (pos total : Nat) (number : String)
  | summary (sent skipped failed : Nat)
  deriving DecidableEq, Repr

/-- The exact status string each event carries (first variant's
templates, lines 130, 140, 146, 165, 170, 176-179). -/
def Event.statusText : Event → String
  | .skipNotRegistered n => "⚠️ Skipped " ++ n ++ " (not on WhatsApp)"
  | .skipInvalidType n => "⚠️ Skipped " ++ n ++ " (invalid file type)"
  | .skipOversize n => "⚠️ Skipped " ++ n ++ " (file >16MB)"
  | .sentOk p t n => "✅ (" ++ toString p ++ "/" ++ toString t ++ ") Sent to " ++ n
  | .sendFailed p t n => "❌ (" ++ toString p ++ "/" ++ toString t ++ ") Failed to send to " ++ n
  | .summary s k f =>
      "🎉 Done! ✅ Sent: " ++ toString s ++ ", ⚠️ Skipped: " ++ toString k
        ++ ", ❌ Failed: " ++ toString f

/-- Observable actions of one dispatch job, in program order. -/
inductive Action
  | regCheck (chatId : String)
  | send (chatId : String)
  | fileCreate (p : String)
  | fileRead (p : String)
  | fileDelete (p : String)
  | emit (e : Event)
  | delayMs (ms : Int)
  deriving DecidableEq, Repr

/-- `path.join(uploadsDir, mediaFile.name)` (line 151), with the
uploads directory abstracted to its relative name. -/
def uploadPathOf (name : String) : String := "uploads/" ++ name

/-- Oracle for the WhatsApp client's awaited calls during one job,
indexed by the loop counter `i`: `Except` error means the awaited
promise rejected (throws into the `catch`). -/
structure Env where
  isRegisteredUser : Nat → Except Unit Bool
  sendMessage : Nat → Except Unit Unit

/-- Per-job configuration fixed before the loop starts: the final
message text, the optional media attachment, and the clamped delay. -/
structure Config where
  message : String
  media : Option MediaFile
  msgDelay : Int

/-! ## The dispatch loop, first variant (lines 120-180) -/

/-- One iteration of the first variant's loop body (lines 122-173):
registration check, optional media validation and scratch-file send,
text send, per-outcome emit, pacing delay.  The three `continue`
statements end the iteration before the `await delay(msgDelay)` line,
so their traces carry no `delayMs` action; a thrown `sendMessage`
skips the `fs.unlinkSync` cleanup but still reaches the delay. -/
def iterV1 (env : Env) (cfg : Config) (total i : Nat) (number : String) :
    Outcome × List Action :=
  let chatId := chatIdOf number
  match env.isRegisteredUser i with
  | .error _ =>
      (.failed, [.regCheck chatId, .emit (.sendFailed (i + 1) total number),
                 .delayMs cfg.msgDelay])
  | .ok false =>
      (.skipped, [.regCheck chatId, .emit (.skipNotRegistered number)])
  | .ok true =>
    match cfg.media with
    | some m =>
      if ¬(jsStartsWith m.mimetype "video/" = true ∨ jsStartsWith m.mimetype "image/" = true) then
        (.skipped, [.regCheck chatId, .emit (.skipInvalidType number)])
      else if 16 * 1024 * 1024 < m.size then
        (.skipped, [.regCheck chatId, .emit (.skipOversize number)])
      else
        let up := uploadPathOf m.name
        match env.sendMessage i with
        | .ok _ =>
            (.sent, [.regCheck chatId, .fileCreate up, .fileRead up, .send chatId,
                     .fileDelete up, .emit (.sentOk (i + 1) total number),
                     .delayMs cfg.msgDelay])
        | .error _ =>
            (.failed, [.regCheck chatId, .fileCreate up, .fileRead up, .send chatId,
                       .emit (.sendFailed (i + 1) total number),
                       .delayMs cfg.msgDelay])
    | none =>
      match env.sendMessage i with
      | .ok _ =>
          (.sent, [.regCheck chatId, .send chatId,
                   .emit (.sentOk (i + 1) total number), .delayMs cfg.msgDelay])
      | .error _ =>
          (.failed, [.regCheck chatId, .send chatId,
                     .emit (.sendFailed (i + 1) total number), .delayMs cfg.msgDelay])

/-- The `for (let i = 0; i < total; i++)` loop, threading the counters
and concatenating iteration traces. -/
def loopV1 (env : Env) (cfg : Config) (total : Nat) :
    Nat → List String → Counters → Counters × List Action
  | _, [], c => (c, [])
  | i, n :: ns, c =>
    let r := iterV1 env cfg total i n
    let rest := loopV1 env cfg total (i + 1) ns (c.apply r.1)
    (rest.1, r.2 ++ rest.2)

/-- The whole fire-and-forget job (lines 120-180): run the loop over
the normalized numbers, then emit the single summary event. -/
def dispatchV1 (env : Env) (cfg : Config) (numbers : List String) :
    Counters × List Action :=
  let r := loopV1 env cfg numbers.length 0 numbers ⟨0, 0, 0⟩
  (r.1, r.2 ++ [.emit (.summary r.1.sent r.1.skipped r.1.failed)])

/-! ## The dispatch loop, third variant (lines 504-545)

Identical control flow except: no media type/size checks, the media is
sent straight from the in-memory buffer (no scratch file), and the
skip/fail status strings differ slightly. -/

def iterV3 (env : Env) (cfg : Config) (total i : Nat) (number : String) :
    Outcome × List Action :=
  let chatId := chatIdOf number
  match env.isRegisteredUser i with
  | .error _ =>
      (.failed, [.regCheck chatId, .emit (.sendFailed (i + 1) total number),
                 .delayMs cfg.msgDelay])
  | .ok false =>
      (.skipped, [.regCheck chatId, .emit (.skipNotRegistered number)])
  | .ok true =>
    match env.sendMessage i with
    | .ok _ =>
        (.sent, [.regCheck chatId, .send chatId,
                 .emit (.sentOk (i + 1) total number), .delayMs cfg.msgDelay])
    | .error _ =>
        (.failed, [.regCheck chatId, .send chatId,
                   .emit (.sendFailed (i + 1) total number), .delayMs cfg.msgDelay])

def loopV3 (env : Env) (cfg : Config) (total : Nat) :
    Nat → List String → Counters → Counters × List Action
  | _, [], c => (c, [])
  | i, n :: ns, c =>
    let r := iterV3 env cfg total i n
    let rest := loopV3 env cfg total (i + 1) ns (c.apply r.1)
    (rest.1, r.2 ++ rest.2)

def dispatchV3 (env : Env) (cfg : Config) (numbers : List String) :
    Counters × List Action :=
  let r := loopV3 env cfg numbers.length 0 numbers ⟨0, 0, 0⟩
  (r.1, r.2 ++ [.emit (.summary r.1.sent r.1.skipped r.1.failed)])

/-! ## The `/send` request handlers (pre-loop phase)

The handler's synchronous part: readiness guard, number collection and
normalization, message composition, validation, then spawning the job.
The raw number list is taken after the textarea split and spreadsheet
extraction (lines 72-88). -/

inductive SendResponse
  | notReady
  | noValidNumbers
  | messageOrMediaRequired
  | accepted (total : Nat)
  deriving DecidableEq, Repr

/-- The handler's observable result: the HTTP response plus the spawned
job's counters and trace (`none` when no job was started). -/
structure HandlerResult where
  response : SendResponse
  job : Option (Counters × List Action)
  deriving DecidableEq, Repr

/-- First variant's `/send` handler (lines 65-182): readiness guard
(`client.info && client.info.wid`, modelled by `ready`), normalization,
empty-set check, message (footer commented out, so the final message is
the raw one), message-or-media validation, delay clamp, loop spawn. -/
def handleSendV1 (ready : Bool) (env : Env) (rawNumbers : List String)
    (message : String) (media : Option MediaFile) (delayField : Option Int) :
    HandlerResult :=
  if !ready then ⟨.notReady, none⟩
  else
    let numbers := normalizeNumbers rawNumbers
    if numbers.isEmpty then ⟨.noValidNumbers, none⟩
    else if jsTrim message = "" && media.isNone then ⟨.messageOrMediaRequired, none⟩
    else
      ⟨.accepted numbers.length,
       some (dispatchV1 env ⟨message, media, msgDelayOf delayField⟩ numbers)⟩

/-- The fixed footer the third variant appends to every message
(lines 488-491). -/
def footerV3 : String :=
  "\n\n🟩 *📞 CALL US 9723625050*  \n🟩 🌐 *VISIT NOW* https://www.promiseacademy.co.in/"

/-- Third variant's `/send` handler (lines 454-552): no readiness
guard at all (the `ready` argument is taken only to show the result is
independent of it); the footer is appended before validation. -/
def handleSendV3 (_ready : Bool) (env : Env) (rawNumbers : List String)
    (message : String) (media : Option MediaFile) (delayField : Option Int) :
    HandlerResult :=
  let numbers := normalizeNumbers rawNumbers
  if numbers.isEmpty then ⟨.noValidNumbers, none⟩
  else
    let fullMessage := message ++ footerV3
    if jsTrim fullMessage = "" && media.isNone then ⟨.messageOrMediaRequired, none⟩
    else
      ⟨.accepted numbers.length,
       some (dispatchV3 env ⟨fullMessage, media, msgDelayOf delayField⟩ numbers)⟩

/-! ## Lemmas about the normalizer -/

theorem mem_dedupFirstAux (l : List String) :
    ∀ (seen : List String) (x : String),
      x ∈ dedupFirstAux seen l ↔ x ∈ l ∧ x ∉ seen := by
  induction l with
  | nil => intro seen x; simp [dedupFirstAux]
  | cons a as ih =>
    intro seen x
    simp only [dedupFirstAux, List.mem_cons]
    by_cases h : a ∈ seen
    · rw [if_pos h, ih]
      constructor
      · rintro ⟨hx, hs⟩
        exact ⟨Or.inr hx, hs⟩
      · rintro ⟨hx | hx, hs⟩
        · exact absurd (hx ▸ h) hs
        · exact ⟨hx, hs⟩
    · rw [if_neg h]
      simp only [List.mem_cons, ih]
      constructor
      · rintro (rfl | ⟨hx, hs⟩)
        · exact ⟨Or.inl rfl, h⟩
        · exact ⟨Or.inr hx, fun hx2 => hs (Or.inr hx2)⟩
      · rintro ⟨rfl | hx, hs⟩
        · exact Or.inl rfl
        · by_cases hxa : x = a
          · exact Or.inl hxa
          · exact Or.inr ⟨hx, by simp [List.mem_cons, hxa, hs]⟩

theorem nodup_dedupFirstAux (l : List String) :
    ∀ seen : List String, (dedupFirstAux seen l).Nodup := by
  induction l with
  | nil => intro seen; simp [dedupFirstAux]
  | cons a as ih =>
    intro seen
    simp only [dedupFirstAux]
    by_cases h : a ∈ seen
    · rw [if_pos h]; exact ih seen
    · rw [if_neg h]
      refine List.nodup_cons.mpr ⟨fun hmem => ?_, ih (a :: seen)⟩
      exact ((mem_dedupFirstAux as (a :: seen) a).mp hmem).2 (List.mem_cons_self a seen)

theorem mem_normalizeNumbers (l : List String) (m : String) :
    m ∈ normalizeNumbers l ↔
      ∃ n ∈ l, 10 ≤ (stripNonDigits n).length ∧ m = normalForm (stripNonDigits n) := by
  unfold normalizeNumbers dedupFirst
  rw [mem_dedupFirstAux]
  simp only [List.not_mem_nil, not_false_iff, and_true, List.mem_map, List.mem_filter,
    decide_eq_true_eq]
  constructor
  · rintro ⟨x, ⟨⟨n, hn, rfl⟩, hlen⟩, rfl⟩
    exact ⟨n, hn, hlen, rfl⟩
  · rintro ⟨n, hn, hlen, rfl⟩
    exact ⟨stripNonDigits n, ⟨⟨n, hn, rfl⟩, hlen⟩, rfl⟩

/-! ## Claim theorems -/

/-- C3: every raw entry is stripped of non-digit characters; entries
with fewer than 10 remaining digits are discarded; an entry whose digit
string starts with "91" maps to "+" followed by it, any other entry to
"+91" followed by its last 10 digits; the output is duplicate-free, and
the three spellings of one number collapse to a single id. -/
theorem c3_normalizer_correct (l : List String) :
    (normalizeNumbers l).Nodup ∧
    (∀ m, m ∈ normalizeNumbers l ↔
      ∃ n ∈ l, 10 ≤ (stripNonDigits n).length ∧
        m = (if jsStartsWith (stripNonDigits n) "91" = true
             then "+" ++ stripNonDigits n
             else "+91" ++ sliceLast (stripNonDigits n) 10)) ∧
    normalizeNumbers ["9876543210", "919876543210", "+919876543210"] =
      ["+919876543210"] := by
  refine ⟨nodup_dedupFirstAux _ [], fun m => ?_, by decide⟩
  rw [mem_normalizeNumbers]
  simp only [normalForm]

/-- C9: the effective inter-send delay is the floor-clamp of the parsed
request value against the fixed minimum 1500 ms: 500 is raised to 1500,
5000 passes unchanged, and no parsed value yields a delay below 1500. -/
theorem c9_delay_floor_clamp :
    msgDelayOf (some 500) = 1500 ∧ msgDelayOf (some 5000) = 5000 ∧
    ∀ parsed : Option Int, 1500 ≤ msgDelayOf parsed :=
  ⟨by decide, by decide, fun _ => le_max_right _ _⟩

/-! ## Counter-sum lemmas -/

def Counters.total (c : Counters) : Nat := c.sent + c.skipped + c.failed

theorem Counters.total_apply (c : Counters) (o : Outcome) :
    (c.apply o).total = c.total + 1 := by
  cases o <;> simp [Counters.apply, Counters.total] <;> omega

theorem loopV1_counters_total (env : Env) (cfg : Config) (ns : List String) :
    ∀ (total i : Nat) (c : Counters),
      ((loopV1 env cfg total i ns c).1).total = c.total + ns.length := by
  induction ns with
  | nil => intro total i c; simp [loopV1]
  | cons n ns ih =>
    intro total i c
    simp only [loopV1]
    rw [ih, Counters.total_apply, List.length_cons]
    omega

/-- C10: each iteration bumps exactly one counter, so the final
counters sum to the number of normalized recipients, and the summary
event (always the trace's last action) reports exactly those counters;
moreover an absent/NaN or zero delay field falls back to 2000 ms. -/
theorem c10_counter_sum_invariant (env : Env) (cfg : Config) (numbers : List String) :
    (dispatchV1 env cfg numbers).1.sent + (dispatchV1 env cfg numbers).1.skipped +
        (dispatchV1 env cfg numbers).1.failed = numbers.length ∧
    (dispatchV1 env cfg numbers).2.getLast? =
      some (.emit (.summary (dispatchV1 env cfg numbers).1.sent
        (dispatchV1 env cfg numbers).1.skipped (dispatchV1 env cfg numbers).1.failed)) ∧
    msgDelayOf none = 2000 ∧ msgDelayOf (some 0) = 2000 := by
  refine ⟨?_, ?_, by decide, by decide⟩
  · have h := loopV1_counters_total env cfg numbers numbers.length 0 ⟨0, 0, 0⟩
    simpa [dispatchV1, Counters.total] using h
  · simp [dispatchV1]

/-! ## C1: skip path and pacing delay -/

def c1env : Env := ⟨fun _ => .ok false, fun _ => .ok ()⟩

def c1cfg : Config := ⟨"hello", none, msgDelayOf none⟩

/-- C1: evaluation of the dispatch loop on a single unregistered
recipient.  The send operation is indeed never invoked on the skip
path, but the `continue` on line 131 jumps past the
`await delay(msgDelay)` on line 173, so — contrary to the claim and to
the stated design — no pacing delay is consumed after a skipped
iteration: the full trace is registration check, skip event, summary,
with no `delayMs` (and no `send`) action at all. -/
theorem c1_skip_path_no_send_no_delay :
    dispatchV1 c1env c1cfg ["+919876543210"] =
      (⟨0, 1, 0⟩, [.regCheck "919876543210@c.us",
                   .emit (.skipNotRegistered "+919876543210"),
                   .emit (.summary 0 1 0)]) ∧
    ((dispatchV1 c1env c1cfg ["+919876543210"]).2.countP fun a =>
      match a with | .send _ => true | _ => false) = 0 ∧
    ((dispatchV1 c1env c1cfg ["+919876543210"]).2.countP fun a =>
      match a with | .delayMs _ => true | _ => false) = 0 := by
  decide

/-! ## C2: media scratch-file lifecycle -/

def c2media : MediaFile := ⟨"pic.png", "image/png", 1000⟩

def c2env : Env := ⟨fun _ => .ok true, fun _ => .error ()⟩

def c2cfg : Config := ⟨"hello", some c2media, 2000⟩

/-- C2 counterexample: a registered recipient with a valid media file
whose `sendMessage` throws.  The scratch file is created and read, but
`fs.unlinkSync` (line 159) is only reached on the success path — the
catch block (lines 166-171) performs no deletion — so the file-delete
action never occurs in the trace, refuting "deletion happens on both
the success exit path and the failure exit path". -/
theorem c2_no_delete_on_failure :
    Action.fileCreate "uploads/pic.png" ∈ (dispatchV1 c2env c2cfg ["+919876543210"]).2 ∧
    Action.fileRead "uploads/pic.png" ∈ (dispatchV1 c2env c2cfg ["+919876543210"]).2 ∧
    Action.fileDelete "uploads/pic.png" ∉ (dispatchV1 c2env c2cfg ["+919876543210"]).2 ∧
    (dispatchV1 c2env c2cfg ["+919876543210"]).1.failed = 1 := by
  decide

/-- C2 amended: for a registered recipient with media passing the
type/size checks, the scratch file is created, read and deleted within
the same iteration on the success exit path; on the failure exit path
(`sendMessage` throws after the file was written) the file is created
and read but never deleted. -/
theorem c2_scratch_file_lifecycle (env : Env) (cfg : Config) (total i : Nat)
    (number : String) (m : MediaFile) (hm : cfg.media = some m)
    (hreg : env.isRegisteredUser i = .ok true)
    (htype : jsStartsWith m.mimetype "video/" = true ∨ jsStartsWith m.mimetype "image/" = true)
    (hsize : m.size ≤ 16 * 1024 * 1024) :
    (env.sendMessage i = .ok () →
      (iterV1 env cfg total i number).2 =
        [.regCheck (chatIdOf number), .fileCreate (uploadPathOf m.name),
         .fileRead (uploadPathOf m.name), .send (chatIdOf number),
         .fileDelete (uploadPathOf m.name), .emit (.sentOk (i + 1) total number),
         .delayMs cfg.msgDelay]) ∧
    (env.sendMessage i = .error () →
      (iterV1 env cfg total i number).2 =
        [.regCheck (chatIdOf number), .fileCreate (uploadPathOf m.name),
         .fileRead (uploadPathOf m.name), .send (chatIdOf number),
         .emit (.sendFailed (i + 1) total number), .delayMs cfg.msgDelay] ∧
      Action.fileDelete (uploadPathOf m.name) ∉ (iterV1 env cfg total i number).2) := by
  have hnsize : ¬(16 * 1024 * 1024 < m.size) := not_lt.mpr hsize
  constructor
  · intro hsend
    simp [iterV1, hreg, hm, htype, hnsize, hsend]
  · intro hsend
    constructor
    · simp [iterV1, hreg, hm, htype, hnsize, hsend]
    · simp [iterV1, hreg, hm, htype, hnsize, hsend]

/-- C2 amended, witnessed on the success path at a concrete input. -/
theorem c2_scratch_file_lifecycle_witness :
    (iterV1 ⟨fun _ => .ok true, fun _ => .ok ()⟩
        ⟨"hi", some ⟨"p.png", "image/png", 9⟩, 2000⟩ 1 0 "+919876543210").2 =
      [.regCheck (chatIdOf "+919876543210"), .fileCreate (uploadPathOf "p.png"),
       .fileRead (uploadPathOf "p.png"), .send (chatIdOf "+919876543210"),
       .fileDelete (uploadPathOf "p.png"), .emit (.sentOk 1 1 "+919876543210"),
       .delayMs 2000] :=
  (c2_scratch_file_lifecycle ⟨fun _ => .ok true, fun _ => .ok ()⟩
    ⟨"hi", some ⟨"p.png", "image/png", 9⟩, 2000⟩ 1 0 "+919876543210"
    ⟨"p.png", "image/png", 9⟩ rfl rfl (by decide) (by decide)).1 rfl

/-! ## C4: per-recipient failure isolation -/

def c4env : Env := ⟨fun _ => .ok true, fun i => if i = 2 then .error () else .ok ()⟩

def c4cfg : Config := ⟨"hello", none, msgDelayOf none⟩

def c4nums : List String :=
  ["+911111111111", "+912222222222", "+913333333333", "+914444444444", "+915555555555"]

/-- C4: in a 5-recipient batch where only recipient #3's send throws,
all 5 iterations run (5 registration checks in the trace), the counters
end at sent = 4, skipped = 0, failed = 1, exactly one summary event is
emitted and it is the last action — the thrown error is absorbed by the
per-iteration catch and never aborts the loop. -/
theorem c4_failure_isolation :
    (dispatchV1 c4env c4cfg c4nums).1 = ⟨4, 0, 1⟩ ∧
    ((dispatchV1 c4env c4cfg c4nums).2.countP fun a =>
      match a with | .regCheck _ => true | _ => false) = 5 ∧
    ((dispatchV1 c4env c4cfg c4nums).2.countP fun a =>
      match a with | .emit (.summary _ _ _) => true | _ => false) = 1 ∧
    (dispatchV1 c4env c4cfg c4nums).2.getLast? = some (.emit (.summary 4 0 1)) := by
  decide

/-! ## C5: readiness guard -/

def c5env : Env := ⟨fun _ => .ok true, fun _ => .ok ()⟩

/-- C5 counterexample: the third variant's `/send` handler (lines
454-552) has no readiness guard at all — with the client not ready it
still accepts the request and starts the dispatch job, refuting "the
request fails synchronously with an error response and the dispatch
job never starts". -/
theorem c5_third_variant_no_guard :
    (handleSendV3 false c5env ["9876543210"] "hi" none none).response = .accepted 1 ∧
    (handleSendV3 false c5env ["9876543210"] "hi" none none).job.isSome = true := by
  decide

/-- C5 amended: in the first variant the readiness signal is checked
once, before anything else: an unready client makes the handler return
the not-ready error with no job started, whatever the rest of the
request holds (and the dispatch loop itself takes no readiness input,
so the check is never per-item).  The third variant performs no
readiness check: its result is independent of the readiness signal. -/
theorem c5_readiness_guard (env : Env) (rawNumbers : List String) (message : String)
    (media : Option MediaFile) (delayField : Option Int) :
    handleSendV1 false env rawNumbers message media delayField =
      ⟨.notReady, none⟩ ∧
    ∀ r₁ r₂ : Bool,
      handleSendV3 r₁ env rawNumbers message media delayField =
        handleSendV3 r₂ env rawNumbers message media delayField :=
  ⟨rfl, fun _ _ => rfl⟩

/-! ## C6: payload validator -/

/-- C6: the message-or-media validation error is returned exactly when
the final message string trims to empty and no media file is attached
(and the recipient set was non-empty, since that check runs first); in
the third variant the "final message" includes the appended footer. -/
theorem c6_validator_gate (env : Env) (rawNumbers : List String) (message : String)
    (media : Option MediaFile) (delayField : Option Int) :
    ((handleSendV1 true env rawNumbers message media delayField).response =
        .messageOrMediaRequired ↔
      (normalizeNumbers rawNumbers ≠ [] ∧ jsTrim message = "" ∧ media = none)) ∧
    (∀ ready, (handleSendV3 ready env rawNumbers message media delayField).response =
        .messageOrMediaRequired ↔
      (normalizeNumbers rawNumbers ≠ [] ∧ jsTrim (message ++ footerV3) = "" ∧
        media = none)) := by
  constructor
  · by_cases hn : normalizeNumbers rawNumbers = []
    · simp [handleSendV1, hn]
    · by_cases h1 : jsTrim message = ""
      · by_cases h2 : media = none
        · simp [handleSendV1, List.isEmpty_iff, hn, h1, h2]
        · simp [handleSendV1, List.isEmpty_iff, hn, h1, h2,
            Option.isNone_iff_eq_none]
      · simp [handleSendV1, List.isEmpty_iff, hn, h1]
  · intro ready
    by_cases hn : normalizeNumbers rawNumbers = []
    · simp [handleSendV3, hn]
    · by_cases h1 : jsTrim (message ++ footerV3) = ""
      · by_cases h2 : media = none
        · simp [handleSendV3, List.isEmpty_iff, hn, h1, h2]
        · simp [handleSendV3, List.isEmpty_iff, hn, h1, h2,
            Option.isNone_iff_eq_none]
      · simp [handleSendV3, List.isEmpty_iff, hn, h1]

/-! ## C7: per-send media checks -/

def c7media : MediaFile := ⟨"big.mp4", "video/mp4", 17 * 1024 * 1024⟩

def c7env : Env := ⟨fun _ => .ok true, fun _ => .ok ()⟩

def c7cfg : Config := ⟨"hi", some c7media, 2000⟩

/-- C7 counterexample: in the third variant (lines 516-525) a media
file over the 16 MiB ceiling is sent anyway — the recipient is counted
as sent, not skipped, and a send action occurs, refuting "the size
ceiling is re-checked inside the loop at send time for every
recipient ... without calling send". -/
theorem c7_third_variant_no_checks :
    (dispatchV3 c7env c7cfg ["+919876543210"]).1 = ⟨1, 0, 0⟩ ∧
    Action.send "919876543210@c.us" ∈ (dispatchV3 c7env c7cfg ["+919876543210"]).2 := by
  decide

/-- C7 amended: in the first variant the media MIME-type prefix and
the 16 MiB ceiling are re-checked inside the loop for every registered
recipient: an invalid type yields a skip with the invalid-type event
and an oversize file a skip with the oversize event, in both cases
with no send action (the `continue` also bypasses the pacing delay);
the third variant's loop performs no media checks at all — its
behaviour does not depend on the attached media. -/
theorem c7_per_send_media_checks (env : Env) (cfg : Config) (total i : Nat)
    (number : String) (m : MediaFile) (hm : cfg.media = some m)
    (hreg : env.isRegisteredUser i = .ok true) :
    (¬(jsStartsWith m.mimetype "video/" = true ∨ jsStartsWith m.mimetype "image/" = true) →
      iterV1 env cfg total i number =
        (.skipped, [.regCheck (chatIdOf number), .emit (.skipInvalidType number)])) ∧
    ((jsStartsWith m.mimetype "video/" = true ∨ jsStartsWith m.mimetype "image/" = true) →
      16 * 1024 * 1024 < m.size →
      iterV1 env cfg total i number =
        (.skipped, [.regCheck (chatIdOf number), .emit (.skipOversize number)])) ∧
    (∀ m' : Option MediaFile,
      iterV3 env ⟨cfg.message, m', cfg.msgDelay⟩ total i number =
        iterV3 env ⟨cfg.message, cfg.media, cfg.msgDelay⟩ total i number) := by
  refine ⟨fun htype => ?_, fun htype hsize => ?_, fun m' => rfl⟩
  · simp [iterV1, hreg, hm, htype]
  · simp [iterV1, hreg, hm, htype, hsize]

/-- C7 amended, witnessed at a concrete invalid-type media input. -/
theorem c7_per_send_media_checks_witness :
    iterV1 ⟨fun _ => .ok true, fun _ => .ok ()⟩
        ⟨"hi", some ⟨"a.pdf", "application/pdf", 5⟩, 2000⟩ 1 0 "+919876543210" =
      (.skipped, [.regCheck (chatIdOf "+919876543210"),
                  .emit (.skipInvalidType "+919876543210")]) :=
  (c7_per_send_media_checks ⟨fun _ => .ok true, fun _ => .ok ()⟩
    ⟨"hi", some ⟨"a.pdf", "application/pdf", 5⟩, 2000⟩ 1 0 "+919876543210"
    ⟨"a.pdf", "application/pdf", 5⟩ rfl rfl).1 (by decide)

/-! ## C8: event ordering -/

theorem loopV1_trace (env : Env) (cfg : Config) (ns : List String) :
    ∀ (total i : Nat) (c : Counters),
      (loopV1 env cfg total i ns c).2 =
        ((ns.enumFrom i).map fun p => (iterV1 env cfg total p.1 p.2).2).flatten := by
  induction ns with
  | nil => intro total i c; simp [loopV1, List.enumFrom]
  | cons n ns ih =>
    intro total i c
    simp only [loopV1, List.enumFrom, List.map_cons, List.flatten]
    rw [ih]

def c8env : Env := ⟨fun _ => .ok true, fun _ => .ok ()⟩

def c8cfg : Config := ⟨"hello", none, 2000⟩

/-- C8: the job's trace is exactly the per-recipient iteration traces
concatenated in index order followed by the single summary emission
(so recipient i's events all precede recipient i+1's, and the summary
is last); no iteration emits a summary; and whenever an iteration emits
the success event, the trace of that iteration places it strictly after
the send action it reports on. -/
theorem c8_event_ordering (env : Env) (cfg : Config) (numbers : List String) :
    (dispatchV1 env cfg numbers).2 =
      ((numbers.enumFrom 0).map fun p =>
        (iterV1 env cfg numbers.length p.1 p.2).2).flatten
        ++ [.emit (.summary (dispatchV1 env cfg numbers).1.sent
             (dispatchV1 env cfg numbers).1.skipped
             (dispatchV1 env cfg numbers).1.failed)] ∧
    (∀ total i number, ((iterV1 env cfg total i number).2.countP fun a =>
        match a with | .emit (.summary _ _ _) => true | _ => false) = 0) ∧
    (∀ total i number,
      Action.emit (.sentOk (i + 1) total number) ∈ (iterV1 env cfg total i number).2 →
      ∃ pre post, (iterV1 env cfg total i number).2 =
        pre ++ Action.send (chatIdOf number) :: post ∧
        Action.emit (.sentOk (i + 1) total number) ∈ post) := by
  refine ⟨?_, ?_, ?_⟩
  · simp only [dispatchV1]
    rw [loopV1_trace]
  · intro total i number
    rcases henv : env.isRegisteredUser i with e | b
    · simp [iterV1, henv]
    · cases b
      · simp [iterV1, henv]
      · rcases hm : cfg.media with _ | m
        · rcases hs : env.sendMessage i with e | u
          · simp [iterV1, henv, hm, hs]
          · simp [iterV1, henv, hm, hs]
        · by_cases ht : jsStartsWith m.mimetype "video/" = true ∨
              jsStartsWith m.mimetype "image/" = true
          · by_cases hsz : 16 * 1024 * 1024 < m.size
            · simp [iterV1, henv, hm, ht, hsz]
            · rcases hs : env.sendMessage i with e | u
              · simp [iterV1, henv, hm, ht, hsz, hs]
              · simp [iterV1, henv, hm, ht, hsz, hs]
          · simp [iterV1, henv, hm, ht]
  · intro total i number hmem
    rcases henv : env.isRegisteredUser i with e | b
    · simp [iterV1, henv] at hmem
    · cases b
      · simp [iterV1, henv] at hmem
      · rcases hm : cfg.media with _ | m
        · rcases hs : env.sendMessage i with e | u
          · simp [iterV1, henv, hm, hs] at hmem
          · exact ⟨[.regCheck (chatIdOf number)],
              [.emit (.sentOk (i + 1) total number), .delayMs cfg.msgDelay],
              by simp [iterV1, henv, hm, hs], by simp⟩
        · by_cases ht : jsStartsWith m.mimetype "video/" = true ∨
              jsStartsWith m.mimetype "image/" = true
          · by_cases hsz : 16 * 1024 * 1024 < m.size
            · simp [iterV1, henv, hm, ht, hsz] at hmem
            · rcases hs : env.sendMessage i with e | u
              · simp [iterV1, henv, hm, ht, hsz, hs] at hmem
              · exact ⟨[.regCheck (chatIdOf number), .fileCreate (uploadPathOf m.name),
                    .fileRead (uploadPathOf m.name)],
                  [.fileDelete (uploadPathOf m.name),
                    .emit (.sentOk (i + 1) total number), .delayMs cfg.msgDelay],
                  by simp [iterV1, henv, hm, ht, hsz, hs], by simp⟩
          · simp [iterV1, henv, hm, ht] at hmem

/-- C8, witnessed: the success event follows the send action at a
concrete single-recipient input. -/
theorem c8_event_ordering_witness :
    ∃ pre post, (iterV1 c8env c8cfg 1 0 "+919876543210").2 =
      pre ++ Action.send (chatIdOf "+919876543210") :: post ∧
      Action.emit (.sentOk 1 1 "+919876543210") ∈ post :=
  (c8_event_ordering c8env c8cfg ["+919876543210"]).2.2 1 0 "+919876543210" (by decide)

end WhatsappApi
